import Mathlib

/-!
Verification development for the risk-predictor-app repository.

The repository contains two independent risk-scoring implementations:

* Variant A — `calculateRiskScore` in `App.jsx` (weighted multi-factor model),
  together with the helper `estimateIncreasedRepayment` and the constant
  `WORST_CASE_VACANCY_RATE`.
* Variant B — `calculateRealEstateRisk` in `RiskCalculator.js` (DSR/DCR linear
  model), together with the simulation driver `runWorstCaseSimulation`.

JavaScript numbers are modelled as rationals (ℚ); `Math.floor` is the rational
floor `⌊·⌋ : ℚ → ℤ`, and the JavaScript idiom `x || 1` on a number is modelled
as `if x = 0 then 1 else x` (0 is the only falsy rational here).  Display-only
strings that interpolate decimally formatted numbers (`dcrComment`,
`simulatedRiskDetail`, `vacancyRiskDetail`) are not modelled; every other
output field is carried through.
-/

namespace RiskPredictor

/-- The JavaScript expression `x || 1` specialised to numbers: the value
itself when nonzero, the sentinel 1 when zero. -/
def orOne (x : ℚ) : ℚ := if x = 0 then 1 else x

/-! ## Variant A — `calculateRiskScore` (App.jsx) -/

/-- The input record destructured at the top of `calculateRiskScore`. -/
structure InputA where
  annualIncome : ℚ
  annualRepayment : ℚ
  totalDebt : ℚ
  annualRentIncome : ℚ
  expenseRate : ℚ
  vacancyRate : ℚ
  interestRate : ℚ
  simulatedInterestRate : ℚ
  otherDebtRatio : ℚ
deriving Repr, DecidableEq

/-- `const WORST_CASE_VACANCY_RATE = 0.20`. -/
def WORST_CASE_VACANCY_RATE : ℚ := 0.20

/-- `estimateIncreasedRepayment(totalDebt, currentRate, newRate)`:
`totalDebt * (newRate - currentRate) * 0.7`. -/
def estimateIncreasedRepayment (totalDebt currentRate newRate : ℚ) : ℚ :=
  totalDebt * (newRate - currentRate) * 0.7

/-- `const debtToIncomeRatio = annualRepayment / (annualIncome || 1)`. -/
def debtToIncomeRatio (input : InputA) : ℚ :=
  input.annualRepayment / orOne input.annualIncome

/-- `const totalDebtToIncomeRatio = totalDebt / (annualIncome || 1)`. -/
def totalDebtToIncomeRatio (input : InputA) : ℚ :=
  input.totalDebt / orOne input.annualIncome

/-- Step 1 of `calculateRiskScore`: the credit sub-score.  Starts at 30,
subtracts 5 / 10 / 5 for the three triggers, floored at 0. -/
def creditScore (input : InputA) : ℤ :=
  let s1 : ℤ := 30
  let s2 : ℤ := if debtToIncomeRatio input > 0.3 then s1 - 5 else s1
  let s3 : ℤ := if totalDebtToIncomeRatio input > 5 then s2 - 10 else s2
  let s4 : ℤ := if input.otherDebtRatio > 0.2 then s3 - 5 else s3
  if s4 < 0 then 0 else s4

/-- `const noi = annualRentIncome * (1 - vacancyRate) * (1 - expenseRate)`. -/
def noi (input : InputA) : ℚ :=
  input.annualRentIncome * (1 - input.vacancyRate) * (1 - input.expenseRate)

/-- `const currentDcsr = noi / (annualRepayment || 1)`. -/
def currentDcsr (input : InputA) : ℚ :=
  noi input / orOne input.annualRepayment

/-- Step 2 of `calculateRiskScore`: the property sub-score.  Starts at 40,
subtracts 10 / 15 / 5 / 5 for the four triggers, floored at 0. -/
def propertyScore (input : InputA) : ℤ :=
  let s1 : ℤ := 40
  let s2 : ℤ := if currentDcsr input < 1.2 then s1 - 10 else s1
  let s3 : ℤ := if currentDcsr input < 1.0 then s2 - 15 else s2
  let s4 : ℤ := if input.expenseRate > 0.4 then s3 - 5 else s3
  let s5 : ℤ := if input.vacancyRate > 0.15 then s4 - 5 else s4
  if s5 < 0 then 0 else s5

/-- Step 3 of `calculateRiskScore`: the interest-risk sub-score.  Starts at 30,
subtracts 10 / 10 / 5 for the three triggers, floored at 0. -/
def interestRiskScore (input : InputA) : ℤ :=
  let s1 : ℤ := 30
  let s2 : ℤ := if input.interestRate > 0.04 then s1 - 10 else s1
  let s3 : ℤ := if input.interestRate > 0.05 then s2 - 10 else s2
  let s4 : ℤ := if totalDebtToIncomeRatio input > 8 then s3 - 5 else s3
  if s4 < 0 then 0 else s4

/-- `const simulatedRepayment = annualRepayment + increasedRepayment`. -/
def simulatedRepayment (input : InputA) : ℚ :=
  input.annualRepayment +
    estimateIncreasedRepayment input.totalDebt input.interestRate
      input.simulatedInterestRate

/-- `const simulatedDcsr = noi / (simulatedRepayment || 1)`. -/
def simulatedDcsr (input : InputA) : ℚ :=
  noi input / orOne (simulatedRepayment input)

/-- The simulated risk level: initialised to `低`, overwritten to `中` when the
simulated DCSR drops below 1.2 and to `高` when it drops below 1.0. -/
def simulatedRiskLevel (input : InputA) : String :=
  if simulatedDcsr input < 1.0 then "高"
  else if simulatedDcsr input < 1.2 then "中"
  else "低"

/-- `const worstCaseVacancyNoi = annualRentIncome * (1 - WORST_CASE_VACANCY_RATE) * (1 - expenseRate)`. -/
def worstCaseVacancyNoi (input : InputA) : ℚ :=
  input.annualRentIncome * (1 - WORST_CASE_VACANCY_RATE) * (1 - input.expenseRate)

/-- `const worstCaseVacancyDcsr = worstCaseVacancyNoi / (annualRepayment || 1)`. -/
def worstCaseVacancyDcsr (input : InputA) : ℚ :=
  worstCaseVacancyNoi input / orOne input.annualRepayment

/-- The vacancy-stress risk level, same overwrite pattern as the simulated one. -/
def vacancyRiskLevel (input : InputA) : String :=
  if worstCaseVacancyDcsr input < 1.0 then "高"
  else if worstCaseVacancyDcsr input < 1.2 then "中"
  else "低"

/-- `const finalScore = creditScore + propertyScore + interestRiskScore`. -/
def finalScore (input : InputA) : ℤ :=
  creditScore input + propertyScore input + interestRiskScore input

/-- The current risk level: initialised to `低`, overwritten to `中` when the
final score is below 80 and to `高` when it is below 50. -/
def riskLevel (input : InputA) : String :=
  if finalScore input < 50 then "高"
  else if finalScore input < 80 then "中"
  else "低"

/-- The fixed detail string attached to each current risk level. -/
def riskDetail (input : InputA) : String :=
  if finalScore input < 50 then
    "信用力または物件収益力に大きな懸念があります。連帯保証人として引き受ける前に、詳細なリスクトレードオフ分析が必要です。"
  else if finalScore input < 80 then
    "一部の財務指標に改善の余地があります。詳細な内訳（信用力、収益力）を確認し、懸念点を特定してください。"
  else
    "債務者・物件収益性ともに優れており、連帯保証リスクは非常に低いと評価されます。"

/-- The record returned by `calculateRiskScore` (the three display strings that
interpolate formatted numbers are not modelled). -/
structure ResultA where
  finalScore : ℤ
  riskLevel : String
  riskDetail : String
  creditScore : ℤ
  propertyScore : ℤ
  interestRiskScore : ℤ
  currentDcsr : ℚ
  simulatedDcsr : ℚ
  simulatedRiskLevel : String
  simulatedRepayment : ℚ
  worstCaseVacancyDcsr : ℚ
  vacancyRiskLevel : String
  worstCaseVacancyRate : ℚ
deriving Repr, DecidableEq

/-- `calculateRiskScore(input)`: assembles the returned record from the step
functions above, which follow the source line by line. -/
def calculateRiskScore (input : InputA) : ResultA :=
  { finalScore := finalScore input
    riskLevel := riskLevel input
    riskDetail := riskDetail input
    creditScore := creditScore input
    propertyScore := propertyScore input
    interestRiskScore := interestRiskScore input
    currentDcsr := currentDcsr input
    simulatedDcsr := simulatedDcsr input
    simulatedRiskLevel := simulatedRiskLevel input
    simulatedRepayment := simulatedRepayment input
    worstCaseVacancyDcsr := worstCaseVacancyDcsr input
    vacancyRiskLevel := vacancyRiskLevel input
    worstCaseVacancyRate := WORST_CASE_VACANCY_RATE }

/-! ## Variant B — `calculateRealEstateRisk` (RiskCalculator.js) -/

/-- The input record read by `calculateRealEstateRisk` and
`runWorstCaseSimulation`. -/
structure InputB where
  annualIncomeDebtor : ℚ
  annualRepayment : ℚ
  annualRentalIncomeGross : ℚ
  vacancyRateAssumption : ℚ
  annualExpensesRatio : ℚ
  otherDebtsRatio : ℚ
  loanAmount : ℚ
deriving Repr, DecidableEq

/-- The record returned by `calculateRealEstateRisk` (the `dcrComment` display
string, which interpolates a formatted number, is not modelled).  The
early-return on zero income omits the `annualNetIncome` field in the source,
hence the `Option`. -/
structure ResultB where
  score : ℤ
  level : String
  dcrDetail : String
  dcrValue : ℚ
  annualNetIncome : Option ℚ
deriving Repr, DecidableEq

/-- The fixed record returned when `data.annualIncomeDebtor === 0.0`. -/
def fatalResult : ResultB :=
  { score := 100
    level := "致命的リスク: 主債務者の年収がゼロです。"
    dcrDetail := ""
    dcrValue := 0
    annualNetIncome := none }

/-- `const annualRepayment = repaymentOverride !== undefined ? repaymentOverride : data.annualRepayment`. -/
def effectiveRepayment (data : InputB) (repaymentOverride : Option ℚ) : ℚ :=
  repaymentOverride.getD data.annualRepayment

/-- `dsr = annualRepayment / data.annualIncomeDebtor` (only reached when the
income is nonzero). -/
def dsrB (data : InputB) (repaymentOverride : Option ℚ) : ℚ :=
  effectiveRepayment data repaymentOverride / data.annualIncomeDebtor

/-- `let baseScore = Math.min(100, Math.floor(dsr * 150))`. -/
def baseScoreB (data : InputB) (repaymentOverride : Option ℚ) : ℤ :=
  min 100 ⌊dsrB data repaymentOverride * 150⌋

/-- `annualNetIncome = grossIncomeAfterVacancy - annualRentalIncomeGross * annualExpensesRatio`,
where `grossIncomeAfterVacancy = annualRentalIncomeGross * (1 - vacancyRateAssumption)`. -/
def annualNetIncomeB (data : InputB) : ℚ :=
  let grossIncomeAfterVacancy :=
    data.annualRentalIncomeGross * (1 - data.vacancyRateAssumption)
  grossIncomeAfterVacancy - data.annualRentalIncomeGross * data.annualExpensesRatio

/-- `dcr = annualRepayment > 0 ? annualNetIncome / annualRepayment : 999.0`. -/
def dcrB (data : InputB) (repaymentOverride : Option ℚ) : ℚ :=
  if effectiveRepayment data repaymentOverride > 0 then
    annualNetIncomeB data / effectiveRepayment data repaymentOverride
  else 999

/-- The DCR-based score adjustment: `+40` when `dcr < 1.0`, else `+15` when
`dcr < 1.2`, else `-10`. -/
def dcrAdjustment (dcr : ℚ) : ℤ :=
  if dcr < 1.0 then 40
  else if dcr < 1.2 then 15
  else -10

/-- The detail string set in the same three-way branch as `dcrAdjustment`. -/
def dcrDetailB (dcr : ℚ) : String :=
  if dcr < 1.0 then "【🚨極めて高いリスク】収益で返済を賄えません。持ち出し必須。"
  else if dcr < 1.2 then "【⚠️高いリスク】DCRがタイトです。キャッシュフローに余裕がありません。"
  else "【✅低いリスク】収益に一定の余裕があります。"

/-- The four-tier level string chosen from the clamped final score. -/
def levelB (finalScore : ℤ) : String :=
  if finalScore ≥ 70 then "非常に高いリスク (⚠️ 専門家への相談を強く推奨)"
  else if finalScore ≥ 50 then "高いリスク (注意深く検討が必要)"
  else if finalScore ≥ 30 then "中程度のリスク (詳細な情報確認を)"
  else "比較的低いリスク"

/-- `calculateRealEstateRisk(data, repaymentOverride)`: the zero-income guard,
then base score from DSR, DCR adjustment, other-debts adjustment, final clamp
to [0,100] and level selection. -/
def calculateRealEstateRisk (data : InputB) (repaymentOverride : Option ℚ) :
    ResultB :=
  if data.annualIncomeDebtor = 0 then fatalResult
  else
    let dcr := dcrB data repaymentOverride
    let score2 := baseScoreB data repaymentOverride + dcrAdjustment dcr
    let score3 := score2 + ⌊data.otherDebtsRatio * 30⌋
    let finalScore := max 0 (min 100 score3)
    { score := finalScore
      level := levelB finalScore
      dcrDetail := dcrDetailB dcr
      dcrValue := dcr
      annualNetIncome := some (annualNetIncomeB data) }

/-- The record returned by `runWorstCaseSimulation`. -/
structure SimulationResult where
  original : ResultB
  vacancy : ResultB
  rateHike : ResultB
  newRepaymentAmount : ℚ
deriving Repr, DecidableEq

/-- `runWorstCaseSimulation(originalData, rateIncreasePercentage, worstVacancyRate)`:
vacancy scenario via a spread-updated copy, rate-hike scenario via the
repayment override, original scenario on the data unchanged. -/
def runWorstCaseSimulation (originalData : InputB)
    (rateIncreasePercentage worstVacancyRate : ℚ) : SimulationResult :=
  let simDataVacancy := { originalData with vacancyRateAssumption := worstVacancyRate }
  let resultVacancy := calculateRealEstateRisk simDataVacancy none
  let annualRepaymentIncrease := originalData.loanAmount * rateIncreasePercentage
  let newAnnualRepayment := originalData.annualRepayment + annualRepaymentIncrease
  let resultRate := calculateRealEstateRisk originalData (some newAnnualRepayment)
  { original := calculateRealEstateRisk originalData none
    vacancy := resultVacancy
    rateHike := resultRate
    newRepaymentAmount := newAnnualRepayment }

/-- `runWorstCaseSimulation` at its default parameters
`rateIncreasePercentage = 0.02`, `worstVacancyRate = 0.20`. -/
def runWorstCaseSimulationDefault (originalData : InputB) : SimulationResult :=
  runWorstCaseSimulation originalData 0.02 0.20

/-! ## Concrete inputs used as counterexamples and witnesses

`exampleInputA` / `exampleInputB` are the spec's Example 1 / Example 4 input
(income 5,000,000; repayment 1,000,000; debt 30,000,000; rent 2,000,000;
expense 0.3; vacancy 0.1; other-debt 0.1), written in each variant's field
layout.  `example2InputA` is the same with vacancy 0.25 (spec Example 2). -/

def exampleInputA : InputA :=
  ⟨5000000, 1000000, 30000000, 2000000, 0.3, 0.1, 0.03, 0.04, 0.1⟩

def example2InputA : InputA :=
  ⟨5000000, 1000000, 30000000, 2000000, 0.3, 0.25, 0.03, 0.04, 0.1⟩

/-- Example-1 input with annual repayment 0.5: a nonzero repayment below 1,
separating `repayment || 1` from `max(repayment, 1)`. -/
def fractionalRepaymentInput : InputA :=
  ⟨5000000, 0.5, 30000000, 2000000, 0.3, 0.1, 0.03, 0.04, 0.1⟩

/-- Example-1 input with the borrower income zeroed out. -/
def zeroIncomeInputA : InputA :=
  ⟨0, 1000000, 30000000, 2000000, 0.3, 0.1, 0.03, 0.04, 0.1⟩

def exampleInputB : InputB :=
  ⟨5000000, 1000000, 2000000, 0.1, 0.3, 0.1, 30000000⟩

/-- Variant-B input with the borrower income zeroed out. -/
def zeroIncomeInputB : InputB :=
  ⟨0, 1000000, 2000000, 0.1, 0.3, 0.1, 30000000⟩

/-- Variant-B input with zero repayment and positive net income. -/
def zeroRepaymentInputB : InputB :=
  ⟨1000000, 0, 2000000, 0.1, 0.3, 0.1, 30000000⟩

/-- Variant-B input whose DSR is 2, so that `floor(dsr * 150) = 300`
overshoots the 100 cap taken at the base-score step. -/
def highDsrInputB : InputB :=
  ⟨1000000, 2000000, 2000000, 0.1, 0.3, 0, 0⟩

/-! ## Helper bounds -/

theorem creditScore_bounds (input : InputA) :
    0 ≤ creditScore input ∧ creditScore input ≤ 30 := by
  simp only [creditScore]
  split_ifs <;> omega

theorem propertyScore_bounds (input : InputA) :
    0 ≤ propertyScore input ∧ propertyScore input ≤ 40 := by
  simp only [propertyScore]
  split_ifs <;> omega

theorem interestRiskScore_bounds (input : InputA) :
    0 ≤ interestRiskScore input ∧ interestRiskScore input ≤ 30 := by
  simp only [interestRiskScore]
  split_ifs <;> omega

theorem scoreB_bounds (data : InputB) (repaymentOverride : Option ℚ) :
    0 ≤ (calculateRealEstateRisk data repaymentOverride).score ∧
      (calculateRealEstateRisk data repaymentOverride).score ≤ 100 := by
  unfold calculateRealEstateRisk
  split_ifs with h
  · exact ⟨by norm_num [fatalResult], by norm_num [fatalResult]⟩
  · dsimp only
    omega

/-! ## Claims -/

/-- C1: for every input, the final risk score returned by Variant A's
`calculateRiskScore` and by Variant B's `calculateRealEstateRisk` lies in
[0, 100]. -/
theorem C1_final_score_in_range (a : InputA) (b : InputB) (o : Option ℚ) :
    (0 ≤ (calculateRiskScore a).finalScore ∧ (calculateRiskScore a).finalScore ≤ 100) ∧
    (0 ≤ (calculateRealEstateRisk b o).score ∧ (calculateRealEstateRisk b o).score ≤ 100) := by
  refine ⟨?_, scoreB_bounds b o⟩
  have hc := creditScore_bounds a
  have hp := propertyScore_bounds a
  have hi := interestRiskScore_bounds a
  have hsum : (calculateRiskScore a).finalScore =
      creditScore a + propertyScore a + interestRiskScore a := rfl
  rw [hsum]
  omega

/-- C2 counterexample: on the Example-1 input (written in each variant's field
layout), the `original` assessment returned by `runWorstCaseSimulation` at its
default parameters scores 23 — Variant B's output — while Variant A's
`calculateRiskScore` on the same figures scores 90.  The driver therefore does
not run Variant A's scorer. -/
theorem C2_counterexample :
    (runWorstCaseSimulationDefault exampleInputB).original.score = 23 ∧
    (calculateRiskScore exampleInputA).finalScore = 90 ∧
    (runWorstCaseSimulationDefault exampleInputB).original.score ≠
      (calculateRiskScore exampleInputA).finalScore := by
  have h1 : (runWorstCaseSimulationDefault exampleInputB).original.score = 23 := by
    norm_num [runWorstCaseSimulationDefault, runWorstCaseSimulation,
      calculateRealEstateRisk, baseScoreB, dsrB, dcrB, dcrAdjustment,
      annualNetIncomeB, effectiveRepayment, exampleInputB]
  have h2 : (calculateRiskScore exampleInputA).finalScore = 90 := by
    norm_num [calculateRiskScore, finalScore, creditScore, propertyScore,
      interestRiskScore, currentDcsr, noi, orOne, debtToIncomeRatio,
      totalDebtToIncomeRatio, exampleInputA]
  exact ⟨h1, h2, by rw [h1, h2]; norm_num⟩

/-- C2 (amended): `runWorstCaseSimulation` runs Variant B's scorer
`calculateRealEstateRisk` three times — unmodified input for `original`, the
vacancy rate forced to the worst-case parameter (default 0.20) for `vacancy`,
and the repayment overridden to `annualRepayment + loanAmount * rateIncrease`
(default rate increase 0.02) for `rateHike` — returning all three assessments
plus the stressed repayment amount. -/
theorem C2_simulation_structure (d : InputB) (r w : ℚ) :
    runWorstCaseSimulation d r w =
      { original := calculateRealEstateRisk d none
        vacancy := calculateRealEstateRisk { d with vacancyRateAssumption := w } none
        rateHike := calculateRealEstateRisk d (some (d.annualRepayment + d.loanAmount * r))
        newRepaymentAmount := d.annualRepayment + d.loanAmount * r } ∧
    runWorstCaseSimulationDefault d = runWorstCaseSimulation d 0.02 0.20 :=
  ⟨rfl, rfl⟩

/-- C3: whenever the borrower income is exactly zero, Variant B's
`calculateRealEstateRisk` short-circuits to the fixed fatal result — score
100, the fatal level string, `dcrValue` 0 — regardless of the other fields
and of any repayment override. -/
theorem C3_zero_income_fatal (data : InputB) (o : Option ℚ)
    (h : data.annualIncomeDebtor = 0) :
    calculateRealEstateRisk data o = fatalResult ∧
    (calculateRealEstateRisk data o).score = 100 ∧
    (calculateRealEstateRisk data o).level = "致命的リスク: 主債務者の年収がゼロです。" ∧
    (calculateRealEstateRisk data o).dcrValue = 0 := by
  have he : calculateRealEstateRisk data o = fatalResult := by
    unfold calculateRealEstateRisk
    rw [if_pos h]
  exact ⟨he, by rw [he]; rfl, by rw [he]; rfl, by rw [he]; rfl⟩

theorem C3_witness :
    zeroIncomeInputB.annualIncomeDebtor = 0 ∧
    (calculateRealEstateRisk zeroIncomeInputB none).score = 100 :=
  ⟨rfl, (C3_zero_income_fatal zeroIncomeInputB none rfl).2.1⟩

/-- C4: Variant A's three sub-scores satisfy `creditScore ∈ [0,30]`,
`propertyScore ∈ [0,40]`, `interestRiskScore ∈ [0,30]`, and `finalScore` is
exactly their sum. -/
theorem C4_subscore_bounds_and_sum (input : InputA) :
    (0 ≤ (calculateRiskScore input).creditScore ∧
      (calculateRiskScore input).creditScore ≤ 30) ∧
    (0 ≤ (calculateRiskScore input).propertyScore ∧
      (calculateRiskScore input).propertyScore ≤ 40) ∧
    (0 ≤ (calculateRiskScore input).interestRiskScore ∧
      (calculateRiskScore input).interestRiskScore ≤ 30) ∧
    (calculateRiskScore input).finalScore =
      (calculateRiskScore input).creditScore +
        (calculateRiskScore input).propertyScore +
        (calculateRiskScore input).interestRiskScore :=
  ⟨creditScore_bounds input, propertyScore_bounds input,
    interestRiskScore_bounds input, rfl⟩

/-- C5 counterexample: on the Example-1 input with vacancy rate 0.25, Variant
A does not produce `propertyScore = 35`, `finalScore = 95`, level `低`: the
property score is 25 (the DCSR drops to 1.05 < 1.2, costing a further 10). -/
theorem C5_counterexample :
    ¬ ((calculateRiskScore example2InputA).propertyScore = 35 ∧
       (calculateRiskScore example2InputA).finalScore = 95 ∧
       (calculateRiskScore example2InputA).riskLevel = "低") := by
  have hp : (calculateRiskScore example2InputA).propertyScore = 25 := by
    norm_num [calculateRiskScore, propertyScore, currentDcsr, noi, orOne,
      example2InputA]
  rintro ⟨h35, -, -⟩
  rw [hp] at h35
  exact absurd h35 (by norm_num)

/-- C5 (amended): on the Example-1 input with vacancy rate 0.25, the
vacancy-rate penalty (−5) applies together with the DCSR < 1.2 penalty (−10),
since NOI drops to 1,050,000 and DCSR to 1.05; with the credit penalty for
totalDebt/income = 6 > 5 (−10) the result is `creditScore = 20`,
`propertyScore = 25`, `finalScore = 75`, level `中`. -/
theorem C5_example2_values :
    (calculateRiskScore example2InputA).creditScore = 20 ∧
    (calculateRiskScore example2InputA).propertyScore = 25 ∧
    (calculateRiskScore example2InputA).finalScore = 75 ∧
    (calculateRiskScore example2InputA).riskLevel = "中" ∧
    currentDcsr example2InputA = 1.05 ∧
    example2InputA.vacancyRate > 0.15 := by
  norm_num [calculateRiskScore, riskLevel, finalScore, creditScore,
    propertyScore, interestRiskScore, currentDcsr, noi, orOne,
    debtToIncomeRatio, totalDebtToIncomeRatio, example2InputA]

/-- C6 counterexample: on an input with DSR 2 (income 1,000,000, repayment
2,000,000), `floor(dsr * 150) = 300` while the base score computed by the code
is `min(100, 300) = 100`: the 100 cap is applied already at the base-score
step, not only at the later clamp. -/
theorem C6_counterexample :
    baseScoreB highDsrInputB none = 100 ∧
    ⌊dsrB highDsrInputB none * 150⌋ = 300 ∧
    baseScoreB highDsrInputB none ≠ ⌊dsrB highDsrInputB none * 150⌋ := by
  have h1 : baseScoreB highDsrInputB none = 100 := by
    norm_num [baseScoreB, dsrB, effectiveRepayment, highDsrInputB]
  have h2 : ⌊dsrB highDsrInputB none * 150⌋ = 300 := by
    norm_num [dsrB, effectiveRepayment, highDsrInputB]
  exact ⟨h1, h2, by rw [h1, h2]; norm_num⟩

/-- C6 (amended): in Variant B with nonzero income, the base score equals
`min(100, floor(DSR * 150))` — the upper cap at 100 is applied already at the
base-score step — and the final score is the later clamp to [0,100] of the
base score plus the DCR and other-debts adjustments. -/
theorem C6_base_score_capped (data : InputB) (o : Option ℚ)
    (h : data.annualIncomeDebtor ≠ 0) :
    baseScoreB data o = min 100 ⌊dsrB data o * 150⌋ ∧
    (calculateRealEstateRisk data o).score =
      max 0 (min 100 (baseScoreB data o + dcrAdjustment (dcrB data o) +
        ⌊data.otherDebtsRatio * 30⌋)) := by
  refine ⟨rfl, ?_⟩
  unfold calculateRealEstateRisk
  rw [if_neg h]

theorem C6_witness :
    exampleInputB.annualIncomeDebtor ≠ 0 ∧
    (calculateRealEstateRisk exampleInputB none).score =
      max 0 (min 100 (baseScoreB exampleInputB none + dcrAdjustment (dcrB exampleInputB none) +
        ⌊exampleInputB.otherDebtsRatio * 30⌋)) :=
  ⟨by norm_num [exampleInputB],
    (C6_base_score_capped exampleInputB none (by norm_num [exampleInputB])).2⟩

/-- C7 counterexample: on the Example-1 input with annual repayment 0.5, the
code's DCSR (denominator `repayment || 1`, i.e. 0.5) is 2,520,000, while the
spec's `max(repayment, 1)` denominator would give 1,260,000. -/
theorem C7_counterexample :
    (calculateRiskScore fractionalRepaymentInput).currentDcsr = 2520000 ∧
    noi fractionalRepaymentInput / max fractionalRepaymentInput.annualRepayment 1 = 1260000 ∧
    (calculateRiskScore fractionalRepaymentInput).currentDcsr ≠
      noi fractionalRepaymentInput / max fractionalRepaymentInput.annualRepayment 1 := by
  have h1 : (calculateRiskScore fractionalRepaymentInput).currentDcsr = 2520000 := by
    norm_num [calculateRiskScore, currentDcsr, noi, orOne, fractionalRepaymentInput]
  have h2 : noi fractionalRepaymentInput / max fractionalRepaymentInput.annualRepayment 1 =
      1260000 := by
    have hm : max fractionalRepaymentInput.annualRepayment 1 = 1 := by
      norm_num [fractionalRepaymentInput]
    rw [hm, div_one]
    norm_num [noi, fractionalRepaymentInput]
  exact ⟨h1, h2, by rw [h1, h2]; norm_num⟩

/-- C7 (amended): in Variant A, `NOI = rentIncome * (1 - vacancyRate) *
(1 - expenseRate)` and `DCSR = NOI / (repayment || 1)`: the denominator is the
repayment itself when nonzero and the sentinel 1 only when the repayment is
exactly zero (this coincides with `max(repayment, 1)` only outside the open
interval (0, 1)). -/
theorem C7_dcsr_denominator (input : InputA) :
    noi input = input.annualRentIncome * (1 - input.vacancyRate) * (1 - input.expenseRate) ∧
    (calculateRiskScore input).currentDcsr =
      noi input / (if input.annualRepayment = 0 then 1 else input.annualRepayment) :=
  ⟨rfl, rfl⟩

/-- C8: in Variant B with nonzero income, exactly one of the three DCR
adjustments applies — +40 when DCR < 1.0, else +15 when DCR < 1.2, else −10
when DCR ≥ 1.2 — and the score is built from that single adjustment. -/
theorem C8_dcr_adjustment_trichotomy (data : InputB) (o : Option ℚ)
    (h : data.annualIncomeDebtor ≠ 0) :
    ((dcrB data o < 1.0 ∧ dcrAdjustment (dcrB data o) = 40) ∨
     (1.0 ≤ dcrB data o ∧ dcrB data o < 1.2 ∧ dcrAdjustment (dcrB data o) = 15) ∨
     (1.2 ≤ dcrB data o ∧ dcrAdjustment (dcrB data o) = -10)) ∧
    (calculateRealEstateRisk data o).score =
      max 0 (min 100 (baseScoreB data o + dcrAdjustment (dcrB data o) +
        ⌊data.otherDebtsRatio * 30⌋)) := by
  constructor
  · by_cases h1 : dcrB data o < 1.0
    · exact Or.inl ⟨h1, by rw [dcrAdjustment, if_pos h1]⟩
    · by_cases h2 : dcrB data o < 1.2
      · exact Or.inr (Or.inl ⟨le_of_not_lt h1, h2,
          by rw [dcrAdjustment, if_neg h1, if_pos h2]⟩)
      · exact Or.inr (Or.inr ⟨le_of_not_lt h2,
          by rw [dcrAdjustment, if_neg h1, if_neg h2]⟩)
  · unfold calculateRealEstateRisk
    rw [if_neg h]

theorem C8_witness :
    exampleInputB.annualIncomeDebtor ≠ 0 ∧
    ((dcrB exampleInputB none < 1.0 ∧ dcrAdjustment (dcrB exampleInputB none) = 40) ∨
     (1.0 ≤ dcrB exampleInputB none ∧ dcrB exampleInputB none < 1.2 ∧
       dcrAdjustment (dcrB exampleInputB none) = 15) ∨
     (1.2 ≤ dcrB exampleInputB none ∧ dcrAdjustment (dcrB exampleInputB none) = -10)) :=
  ⟨by norm_num [exampleInputB],
    (C8_dcr_adjustment_trichotomy exampleInputB none (by norm_num [exampleInputB])).1⟩

/-- C9: in Variant B with nonzero income, zero effective repayment and
positive net operating income, the returned `dcrValue` is the sentinel 999
(the division branch is never taken). -/
theorem C9_zero_repayment_sentinel (data : InputB) (o : Option ℚ)
    (h1 : data.annualIncomeDebtor ≠ 0) (h2 : effectiveRepayment data o = 0)
    (h3 : 0 < annualNetIncomeB data) :
    (calculateRealEstateRisk data o).dcrValue = 999 := by
  unfold calculateRealEstateRisk
  rw [if_neg h1]
  show dcrB data o = 999
  rw [dcrB, h2]
  norm_num

theorem C9_witness :
    zeroRepaymentInputB.annualIncomeDebtor ≠ 0 ∧
    effectiveRepayment zeroRepaymentInputB none = 0 ∧
    0 < annualNetIncomeB zeroRepaymentInputB ∧
    (calculateRealEstateRisk zeroRepaymentInputB none).dcrValue = 999 :=
  ⟨by norm_num [zeroRepaymentInputB],
   by norm_num [effectiveRepayment, zeroRepaymentInputB],
   by norm_num [annualNetIncomeB, zeroRepaymentInputB],
   C9_zero_repayment_sentinel zeroRepaymentInputB none
     (by norm_num [zeroRepaymentInputB])
     (by norm_num [effectiveRepayment, zeroRepaymentInputB])
     (by norm_num [annualNetIncomeB, zeroRepaymentInputB])⟩

/-- C10: in Variant A, zero borrower income is not an error condition: the
sentinel denominator 1 makes `debtToIncomeRatio = annualRepayment` and
`totalDebtToIncomeRatio = totalDebt`, and a normal scored result is returned —
the final score is the usual sub-score sum, within [0,100]. -/
theorem C10_zero_income_normal (input : InputA) (h : input.annualIncome = 0) :
    orOne input.annualIncome = 1 ∧
    debtToIncomeRatio input = input.annualRepayment ∧
    totalDebtToIncomeRatio input = input.totalDebt ∧
    (calculateRiskScore input).finalScore =
      creditScore input + propertyScore input + interestRiskScore input ∧
    0 ≤ (calculateRiskScore input).finalScore ∧
    (calculateRiskScore input).finalScore ≤ 100 := by
  have h1 : orOne input.annualIncome = 1 := by rw [orOne, if_pos h]
  have hc := creditScore_bounds input
  have hp := propertyScore_bounds input
  have hi := interestRiskScore_bounds input
  have hsum : (calculateRiskScore input).finalScore =
      creditScore input + propertyScore input + interestRiskScore input := rfl
  refine ⟨h1, ?_, ?_, hsum, ?_, ?_⟩
  · rw [debtToIncomeRatio, h1, div_one]
  · rw [totalDebtToIncomeRatio, h1, div_one]
  · rw [hsum]; omega
  · rw [hsum]; omega

theorem C10_witness :
    zeroIncomeInputA.annualIncome = 0 ∧
    debtToIncomeRatio zeroIncomeInputA = zeroIncomeInputA.annualRepayment ∧
    totalDebtToIncomeRatio zeroIncomeInputA = zeroIncomeInputA.totalDebt :=
  ⟨rfl,
    (C10_zero_income_normal zeroIncomeInputA rfl).2.1,
    (C10_zero_income_normal zeroIncomeInputA rfl).2.2.1⟩

end RiskPredictor
